import Mathlib

/-!
Shallow embedding of the request-dispatching IAM message handlers of
aos_core_iam_cpp (src/iamserver/publicmessagehandler.{hpp,cpp} and
src/iamserver/protectedmessagehandler.{hpp,cpp}), together with proofs about
their routing, retry, status-transition and error-propagation behaviour.

Collaborators (IdentHandler, ProvisionManager, NodeManager, NodeInfoProvider,
PermHandler, the node-stream handlers behind NodeController) are modelled as
oracle fields of an `Env` record; each handler function mirrors the C++
control flow over those oracles and additionally produces a trace of the
collaborator invocations and forwarded frames it performed, so that routing
properties ("executed locally" vs "forwarded") are observable.
-/

set_option maxRecDepth 4096

/-- Aos error kinds relevant to the embedded handlers (aos::ErrorEnum). -/
inductive AosErrorKind
  | eNone
  | eFailed
  | eNotFound
  | eNoMemory
  | eWrongState
  | eInvalidArgument
  deriving DecidableEq

/-- aos::Error: an error kind together with a message. -/
structure AosError where
  kind : AosErrorKind
  message : String
  deriving DecidableEq

/-- aos::Error::IsNone. -/
def AosError.IsNone (e : AosError) : Bool :=
  e.kind == AosErrorKind.eNone

/-- The error value `ErrorEnum::eNone` (no error). -/
def AosError.none : AosError :=
  { kind := AosErrorKind.eNone, message := "" }

/-- cStreamNotFoundError from protectedmessagehandler.cpp. -/
def cStreamNotFoundError : AosError :=
  { kind := AosErrorKind.eNotFound, message := "stream not found" }

/-- gRPC status codes used by the embedded handlers. -/
inductive GrpcCode
  | ok
  | notFound
  | resourceExhausted
  | internal
  | failedPrecondition
  | unavailable
  | invalidArgument
  deriving DecidableEq

/-- grpc::Status: a code together with a message. -/
structure GrpcStatus where
  code : GrpcCode
  message : String
  deriving DecidableEq

/-- grpc::Status::OK. -/
def GrpcStatus.OK : GrpcStatus :=
  { code := GrpcCode.ok, message := "" }

/-- grpc::Status::ok(). -/
def GrpcStatus.isOk (s : GrpcStatus) : Bool :=
  s.code == GrpcCode.ok

/-- Modelled from the spec: aos::common::pbconvert::ConvertAosErrorToGrpcStatus.
The pbconvert library is an external dependency (aos_core_common_cpp), not part
of this repository; the mapping follows the error taxonomy of spec section 7:
NotFound for unknown node/cert/subscription, ResourceExhausted for a static
capacity bound (eNoMemory from a full static array), WrongState (shutdown) as a
failed-precondition transport code, Internal for collaborator failures. -/
def ConvertAosErrorToGrpcStatus (e : AosError) : GrpcStatus :=
  match e.kind with
  | AosErrorKind.eNone => GrpcStatus.OK
  | AosErrorKind.eNotFound => { code := GrpcCode.notFound, message := e.message }
  | AosErrorKind.eNoMemory => { code := GrpcCode.resourceExhausted, message := e.message }
  | AosErrorKind.eWrongState => { code := GrpcCode.failedPrecondition, message := e.message }
  | AosErrorKind.eInvalidArgument => { code := GrpcCode.invalidArgument, message := e.message }
  | AosErrorKind.eFailed => { code := GrpcCode.internal, message := e.message }

/-- Node statuses (aos::NodeStatusEnum). -/
inductive NodeStatus
  | unprovisioned
  | provisioned
  | paused
  deriving DecidableEq

/-- The operations that can be forwarded over a register-node stream to a
secondary node (the NodeStreamHandler methods invoked by the protected
handler).  `createKey` carries the subject actually written into the forwarded
request frame (protectedmessagehandler.cpp sets `keyRequest.set_subject`). -/
inductive RemoteOp
  | pauseNode
  | resumeNode
  | getCertTypes
  | startProvisioning
  | finishProvisioning
  | deprovision
  | createKey (subject : String)
  | applyCert
  deriving DecidableEq

/-- Observable actions performed by a handler while serving one RPC:
local collaborator invocations, forwarded frames, and retry waits.
`retryWait i full` is the condition-variable wait after attempt `i` of
RequestWithRetry; `full` records whether it ran to its 10-second expiry
(it is cut short exactly when mClose is observed true). -/
inductive Event
  | localStartProvisioning (password : String)
  | localFinishProvisioning (password : String)
  | localDeprovision (password : String)
  | localGetCertTypes
  | localCreateKey (certType subject password : String)
  | localApplyCert (certType : String)
  | nodeInfoProviderSetStatus (st : NodeStatus)
  | nodeManagerSetStatus (nodeID : String) (st : NodeStatus)
  | identGetSystemID
  | permRegisterInstance
  | nodeManagerGetNodeInfo (nodeID : String)
  | forward (nodeID : String) (op : RemoteOp) (timeoutSec : Nat)
  | retryWait (i : Nat) (full : Bool)
  deriving DecidableEq

/-- Is the event an execution against a local collaborator (the provision
manager or the node-info provider)?  Recording the node status in the node
manager is bookkeeping done on both routes and is deliberately excluded. -/
def Event.isLocalExec : Event → Bool
  | Event.localStartProvisioning _ => true
  | Event.localFinishProvisioning _ => true
  | Event.localDeprovision _ => true
  | Event.localGetCertTypes => true
  | Event.localCreateKey _ _ _ => true
  | Event.localApplyCert _ => true
  | Event.nodeInfoProviderSetStatus _ => true
  | _ => false

/-- Is the event a frame forwarded to a secondary node? -/
def Event.isForward : Event → Bool
  | Event.forward _ _ _ => true
  | _ => false

/-- Oracle environment: the server's own identity plus the behaviour of every
collaborator the handlers consult.  Forwarded attempts are indexed by the
attempt number so that per-attempt outcomes (spec scenario "retry on closed
stream") are expressible. -/
structure Env where
  selfNodeID : String
  /-- mClose as observed at the top of retry iteration i (set by Close). -/
  close : Nat → Bool
  /-- Does GetNodeStreamHandler find a stream for this node id at attempt i? -/
  hasStream : String → Nat → Bool
  /-- Transport status of the forwarded call at attempt i. -/
  remote : RemoteOp → String → Nat → GrpcStatus
  hasIdentHandler : Bool
  /-- IdentHandler::GetSystemID result (error, system id). -/
  systemID : AosError × String
  /-- ProvisionManager::StartProvisioning(password). -/
  provStart : String → AosError
  /-- ProvisionManager::FinishProvisioning(password). -/
  provFinish : String → AosError
  /-- ProvisionManager::Deprovision(password). -/
  provDeprovision : String → AosError
  /-- ProvisionManager::GetCertTypes -> (error, types). -/
  provGetCertTypes : AosError × List String
  /-- ProvisionManager::CreateKey(type, subject, password) -> (error, csr). -/
  provCreateKey : String → String → String → AosError × String
  /-- ProvisionManager::ApplyCert(type, pem) -> (error, certURL, raw serial). -/
  provApplyCert : String → String → AosError × String × String
  /-- pbconvert::ConvertSerialToProto(raw serial) -> (error, serial string). -/
  convertSerial : String → AosError × String
  /-- NodeInfoProvider::SetNodeStatus(status). -/
  nodeInfoSetStatus : NodeStatus → AosError
  /-- NodeManager::SetNodeStatus(nodeID, status). -/
  nodeManagerSetStatus : String → NodeStatus → AosError
  /-- NodeManager::GetNodeInfo(nodeID) -> (error, node info payload). -/
  nodeManagerGetNodeInfo : String → AosError × String
  /-- PermHandler::RegisterInstance -> (error, secret). -/
  permRegister : AosError × String

/-- cRequestRetryMaxTry from publicmessagehandler.hpp. -/
def cRequestRetryMaxTry : Nat := 3

/-- cRequestRetryTimeout from publicmessagehandler.hpp, in seconds. -/
def cRequestRetryTimeoutSec : Nat := 10

/-- cDefaultTimeout from protectedmessagehandler.hpp (1 minute), in seconds. -/
def cDefaultTimeoutSec : Nat := 60

/-- cProvisioningTimeout from protectedmessagehandler.hpp (5 min), in seconds. -/
def cProvisioningTimeoutSec : Nat := 300

/-- The status RequestWithRetry returns once it observes mClose. -/
def wrongStateStatus : GrpcStatus :=
  ConvertAosErrorToGrpcStatus { kind := AosErrorKind.eWrongState, message := "handler is closed" }

/-- The loop body of PublicMessageHandler::RequestWithRetry.  `i` is the loop
index, `fuel` the remaining iterations (initially cRequestRetryMaxTry), `last`
the status of the previous attempt (returned when the iterations are
exhausted).  Each iteration first checks mClose, then runs the request; an OK
status returns immediately, otherwise the loop waits on the retry condition
variable (the wait runs the full 10 s iff mClose is still false afterwards)
and retries. -/
def RequestWithRetryGo (close : Nat → Bool) (req : Nat → GrpcStatus × List Event) :
    Nat → Nat → GrpcStatus → GrpcStatus × List Event
  | _, 0, last => (last, [])
  | i, Nat.succ fuel, _ =>
    if close i then
      (wrongStateStatus, [])
    else
      let a := req i
      if a.1.isOk then
        a
      else
        let rest := RequestWithRetryGo close req (i + 1) fuel a.1
        (rest.1, a.2 ++ Event.retryWait i (!close (i + 1)) :: rest.2)

/-- PublicMessageHandler::RequestWithRetry (publicmessagehandler.hpp). -/
def RequestWithRetry (close : Nat → Bool) (req : Nat → GrpcStatus × List Event) :
    GrpcStatus × List Event :=
  RequestWithRetryGo close req 0 cRequestRetryMaxTry GrpcStatus.OK

/-- One attempt of a forwarded call: look the stream handler up by node id
(returning cStreamNotFoundError when absent) and otherwise send the request
frame with the per-operation timeout. -/
def forwardAttempt (e : Env) (op : RemoteOp) (nodeID : String) (timeoutSec : Nat)
    (i : Nat) : GrpcStatus × List Event :=
  if e.hasStream nodeID i then
    (e.remote op nodeID i, [Event.forward nodeID op timeoutSec])
  else
    (ConvertAosErrorToGrpcStatus cStreamNotFoundError, [])

/-- A forwarded call as issued by the protected handler: the stream lookup and
remote call wrapped in RequestWithRetry. -/
def forwardCall (e : Env) (op : RemoteOp) (nodeID : String) (timeoutSec : Nat) :
    GrpcStatus × List Event :=
  RequestWithRetry e.close (forwardAttempt e op nodeID timeoutSec)

/-- PublicMessageHandler::ProcessOnThisNode (publicmessagehandler.cpp): a
request targets this node when its node id is empty or equals the server's. -/
def ProcessOnThisNode (e : Env) (nodeID : String) : Bool :=
  nodeID == "" || nodeID == e.selfNodeID

/-- PublicMessageHandler::SetNodeStatus (publicmessagehandler.cpp): when the
request targets this node, first set the status on the node-info provider;
then (on success, or directly for other nodes) record the status in the node
manager under the effective node id. -/
def SetNodeStatus (e : Env) (nodeID : String) (st : NodeStatus) :
    AosError × List Event :=
  let target := if nodeID == "" then e.selfNodeID else nodeID
  if ProcessOnThisNode e nodeID then
    let err := e.nodeInfoSetStatus st
    if !err.IsNone then
      (err, [Event.nodeInfoProviderSetStatus st])
    else
      (e.nodeManagerSetStatus target st,
        [Event.nodeInfoProviderSetStatus st, Event.nodeManagerSetStatus target st])
  else
    (e.nodeManagerSetStatus target st, [Event.nodeManagerSetStatus target st])

/-- PublicMessageHandler::GetNodeInfo(GetNodeInfoRequest)
(publicmessagehandler.cpp, IAMPublicNodesService): the one public RPC
carrying a node_id.  It is always served from the local node-manager store
under the request's node id — no ProcessOnThisNode routing, no stream lookup,
no forwarding; a node-manager failure is returned as a non-OK transport
status. -/
def PublicGetNodeInfo (e : Env) (nodeID : String) :
    GrpcStatus × String × List Event :=
  let r := e.nodeManagerGetNodeInfo nodeID
  if !r.1.IsNone then
    (ConvertAosErrorToGrpcStatus r.1, "", [Event.nodeManagerGetNodeInfo nodeID])
  else
    (GrpcStatus.OK, r.2, [Event.nodeManagerGetNodeInfo nodeID])

/-- ProtectedMessageHandler::PauseNode (protectedmessagehandler.cpp): forward
when the request targets another node (failing fast on a non-OK transport
status), then set the node status to paused, encoding a status-update failure
in the response body under an OK transport status. -/
def PauseNode (e : Env) (nodeID : String) :
    GrpcStatus × Option AosError × List Event :=
  if !ProcessOnThisNode e nodeID then
    let f := forwardCall e RemoteOp.pauseNode nodeID cDefaultTimeoutSec
    if !f.1.isOk then
      (f.1, Option.none, f.2)
    else
      let s := SetNodeStatus e nodeID NodeStatus.paused
      (GrpcStatus.OK, if s.1.IsNone then Option.none else some s.1, f.2 ++ s.2)
  else
    let s := SetNodeStatus e nodeID NodeStatus.paused
    (GrpcStatus.OK, if s.1.IsNone then Option.none else some s.1, s.2)

/-- ProtectedMessageHandler::ResumeNode (protectedmessagehandler.cpp):
symmetric to PauseNode with target status provisioned. -/
def ResumeNode (e : Env) (nodeID : String) :
    GrpcStatus × Option AosError × List Event :=
  if !ProcessOnThisNode e nodeID then
    let f := forwardCall e RemoteOp.resumeNode nodeID cDefaultTimeoutSec
    if !f.1.isOk then
      (f.1, Option.none, f.2)
    else
      let s := SetNodeStatus e nodeID NodeStatus.provisioned
      (GrpcStatus.OK, if s.1.IsNone then Option.none else some s.1, f.2 ++ s.2)
  else
    let s := SetNodeStatus e nodeID NodeStatus.provisioned
    (GrpcStatus.OK, if s.1.IsNone then Option.none else some s.1, s.2)

/-- ProtectedMessageHandler::GetCertTypes (protectedmessagehandler.cpp):
forward with the default timeout, or query the provision manager locally.
Note (faithful to the source): on a local provision-manager failure the code
returns ConvertAosErrorToGrpcStatus(cStreamNotFoundError), not the
collaborator's own error. -/
def GetCertTypes (e : Env) (nodeID : String) :
    GrpcStatus × List String × List Event :=
  if !ProcessOnThisNode e nodeID then
    let f := forwardCall e RemoteOp.getCertTypes nodeID cDefaultTimeoutSec
    (f.1, [], f.2)
  else
    let r := e.provGetCertTypes
    if !r.1.IsNone then
      (ConvertAosErrorToGrpcStatus cStreamNotFoundError, [], [Event.localGetCertTypes])
    else
      (GrpcStatus.OK, r.2, [Event.localGetCertTypes])

/-- ProtectedMessageHandler::StartProvisioning (protectedmessagehandler.cpp):
forward with the provisioning timeout, or run the provision manager locally,
encoding a failure in the response body under an OK transport status. -/
def StartProvisioning (e : Env) (nodeID password : String) :
    GrpcStatus × Option AosError × List Event :=
  if !ProcessOnThisNode e nodeID then
    let f := forwardCall e RemoteOp.startProvisioning nodeID cProvisioningTimeoutSec
    (f.1, Option.none, f.2)
  else
    let err := e.provStart password
    (GrpcStatus.OK, if err.IsNone then Option.none else some err,
      [Event.localStartProvisioning password])

/-- ProtectedMessageHandler::FinishProvisioning (protectedmessagehandler.cpp):
forward (failing fast on a non-OK transport status) or run the provision
manager locally (returning OK with the failure in the body and skipping the
status update on failure); on success set the node status to provisioned. -/
def FinishProvisioning (e : Env) (nodeID password : String) :
    GrpcStatus × Option AosError × List Event :=
  if !ProcessOnThisNode e nodeID then
    let f := forwardCall e RemoteOp.finishProvisioning nodeID cProvisioningTimeoutSec
    if !f.1.isOk then
      (f.1, Option.none, f.2)
    else
      let s := SetNodeStatus e nodeID NodeStatus.provisioned
      (GrpcStatus.OK, if s.1.IsNone then Option.none else some s.1, f.2 ++ s.2)
  else
    let err := e.provFinish password
    if !err.IsNone then
      (GrpcStatus.OK, some err, [Event.localFinishProvisioning password])
    else
      let s := SetNodeStatus e nodeID NodeStatus.provisioned
      (GrpcStatus.OK, if s.1.IsNone then Option.none else some s.1,
        Event.localFinishProvisioning password :: s.2)

/-- ProtectedMessageHandler::Deprovision (protectedmessagehandler.cpp):
symmetric to FinishProvisioning with target status unprovisioned. -/
def Deprovision (e : Env) (nodeID password : String) :
    GrpcStatus × Option AosError × List Event :=
  if !ProcessOnThisNode e nodeID then
    let f := forwardCall e RemoteOp.deprovision nodeID cProvisioningTimeoutSec
    if !f.1.isOk then
      (f.1, Option.none, f.2)
    else
      let s := SetNodeStatus e nodeID NodeStatus.unprovisioned
      (GrpcStatus.OK, if s.1.IsNone then Option.none else some s.1, f.2 ++ s.2)
  else
    let err := e.provDeprovision password
    if !err.IsNone then
      (GrpcStatus.OK, some err, [Event.localDeprovision password])
    else
      let s := SetNodeStatus e nodeID NodeStatus.unprovisioned
      (GrpcStatus.OK, if s.1.IsNone then Option.none else some s.1,
        Event.localDeprovision password :: s.2)

/-- Response body of CreateKey. -/
structure CreateKeyResponse where
  nodeId : String := ""
  certType : String := ""
  csr : String := ""
  errorInfo : Option AosError := Option.none
  deriving DecidableEq

/-- ProtectedMessageHandler::CreateKey (protectedmessagehandler.cpp): resolve
an empty subject through IdentHandler::GetSystemID (error in the body when no
ident handler is configured or the lookup fails), then forward the request
with the substituted subject, or create the key locally. -/
def CreateKey (e : Env) (nodeID certType subjectReq password : String) :
    GrpcStatus × CreateKeyResponse × List Event :=
  if subjectReq == "" && !e.hasIdentHandler then
    (GrpcStatus.OK,
      { errorInfo := some { kind := AosErrorKind.eNotFound, message := "Subject can't be empty" } },
      [])
  else
    let identUsed := subjectReq == "" && e.hasIdentHandler
    let subject := if identUsed then e.systemID.2 else subjectReq
    let identEvents := if identUsed then [Event.identGetSystemID] else []
    if identUsed && !e.systemID.1.IsNone then
      (GrpcStatus.OK, { errorInfo := some e.systemID.1 }, identEvents)
    else if !ProcessOnThisNode e nodeID then
      let f := forwardCall e (RemoteOp.createKey subject) nodeID cDefaultTimeoutSec
      (f.1, {}, identEvents ++ f.2)
    else
      let r := e.provCreateKey certType subject password
      if !r.1.IsNone then
        (GrpcStatus.OK, { errorInfo := some r.1 },
          identEvents ++ [Event.localCreateKey certType subject password])
      else
        (GrpcStatus.OK, { nodeId := nodeID, certType := certType, csr := r.2 },
          identEvents ++ [Event.localCreateKey certType subject password])

/-- Response body of ApplyCert. -/
structure ApplyCertResponse where
  nodeId : String := ""
  certType : String := ""
  certUrl : String := ""
  serial : String := ""
  errorInfo : Option AosError := Option.none
  deriving DecidableEq

/-- ProtectedMessageHandler::ApplyCert (protectedmessagehandler.cpp): node id
and type are echoed upfront; forward with the default timeout, or apply the
certificate locally, encoding provision-manager and serial-conversion
failures in the response body under an OK transport status. -/
def ApplyCert (e : Env) (nodeID certType certPem : String) :
    GrpcStatus × ApplyCertResponse × List Event :=
  let base : ApplyCertResponse := { nodeId := nodeID, certType := certType }
  if !ProcessOnThisNode e nodeID then
    let f := forwardCall e RemoteOp.applyCert nodeID cDefaultTimeoutSec
    (f.1, base, f.2)
  else
    let r := e.provApplyCert certType certPem
    if !r.1.IsNone then
      (GrpcStatus.OK, { base with errorInfo := some r.1 }, [Event.localApplyCert certType])
    else
      let s := e.convertSerial r.2.2
      if !s.1.IsNone then
        (GrpcStatus.OK, { base with errorInfo := some s.1 }, [Event.localApplyCert certType])
      else
        (GrpcStatus.OK, { base with certUrl := r.2.1, serial := s.2 },
          [Event.localApplyCert certType])

/-- The permission-conversion loop of ProtectedMessageHandler::RegisterInstance:
for each (service, permissions) entry, EmplaceBack on a static array of
capacity `maxServices` (failing with eNoMemory when full), then PushBack each
key/value pair into the per-service array of capacity `maxPerms` (failing with
eNoMemory when full).  `n` is the number of entries already stored. -/
def convertPermissionsGo (maxServices maxPerms : Nat) :
    List (String × List (String × String)) → Nat → Except AosError Unit
  | [], _ => Except.ok ()
  | entry :: rest, n =>
    if maxServices ≤ n then
      Except.error { kind := AosErrorKind.eNoMemory, message := "no memory" }
    else if maxPerms < entry.2.length then
      Except.error { kind := AosErrorKind.eNoMemory, message := "no memory" }
    else
      convertPermissionsGo maxServices maxPerms rest (n + 1)

/-- ProtectedMessageHandler::RegisterInstance (protectedmessagehandler.cpp):
convert the permissions map into the bounded static array (returning the
conversion failure as a non-OK transport status before touching the
permission handler), then mint the secret through PermHandler, returning the
collaborator failure as a non-OK transport status or the secret on success. -/
def RegisterInstance (e : Env) (maxServices maxPerms : Nat)
    (perms : List (String × List (String × String))) :
    GrpcStatus × Option String × List Event :=
  match convertPermissionsGo maxServices maxPerms perms 0 with
  | Except.error err => (ConvertAosErrorToGrpcStatus err, Option.none, [])
  | Except.ok _ =>
    let r := e.permRegister
    if !r.1.IsNone then
      (ConvertAosErrorToGrpcStatus r.1, Option.none, [Event.permRegisterInstance])
    else
      (GrpcStatus.OK, some r.2, [Event.permRegisterInstance])

/-- PublicMessageHandler::cAllowedStatuses (publicmessagehandler.hpp): the
statuses with which the public RegisterNode admits a connecting node. -/
def publicAllowedStatuses : List NodeStatus :=
  [NodeStatus.unprovisioned]

/-- ProtectedMessageHandler::cAllowedStatuses (protectedmessagehandler.hpp):
the statuses with which the protected RegisterNode admits a connecting node. -/
def protectedAllowedStatuses : List NodeStatus :=
  [NodeStatus.provisioned, NodeStatus.paused]

/-- Modelled from the spec: NodeController::HandleRegisterNodeStream (the
nodecontroller sources are part of this repository but are not present under
src/).  Spec section 4.1, registration step 2: the main node validates that
the connecting node's status is in the endpoint's allowed-status set and
rejects it otherwise. -/
def handleRegisterNodeAdmits (allowed : List NodeStatus) (st : NodeStatus) : Bool :=
  allowed.contains st

/-- PublicMessageHandler::RegisterNode passes the public allowed-status set. -/
def publicRegisterNodeAdmits (st : NodeStatus) : Bool :=
  handleRegisterNodeAdmits publicAllowedStatuses st

/-- ProtectedMessageHandler::RegisterNode passes the protected set. -/
def protectedRegisterNodeAdmits (st : NodeStatus) : Bool :=
  handleRegisterNodeAdmits protectedAllowedStatuses st

/-- The node status observed after a handler trace, starting from `cur`: the
last status written through NodeInfoProvider::SetNodeStatus, which persists
the status (the nodeinfoprovider tests pin that the write is unconditional). -/
def statusAfter (cur : NodeStatus) (tr : List Event) : NodeStatus :=
  tr.foldl
    (fun st ev =>
      match ev with
      | Event.nodeInfoProviderSetStatus s => s
      | _ => st)
    cur

/-- A canonical concrete environment: main node "main", no shutdown, every
stream registered, every remote and local collaborator succeeding. -/
def demoEnv : Env where
  selfNodeID := "main"
  close := fun _ => false
  hasStream := fun _ _ => true
  remote := fun _ _ _ => GrpcStatus.OK
  hasIdentHandler := true
  systemID := (AosError.none, "system-id")
  provStart := fun _ => AosError.none
  provFinish := fun _ => AosError.none
  provDeprovision := fun _ => AosError.none
  provGetCertTypes := (AosError.none, ["iam", "sm"])
  provCreateKey := fun _ _ _ => (AosError.none, "csr-pem")
  provApplyCert := fun _ _ => (AosError.none, ("cert-url", "serial-raw"))
  convertSerial := fun _ => (AosError.none, "serial-hex")
  nodeInfoSetStatus := fun _ => AosError.none
  nodeManagerSetStatus := fun _ _ => AosError.none
  nodeManagerGetNodeInfo := fun _ => (AosError.none, "node-info")
  permRegister := (AosError.none, "test-secret")

/-- Every event in a retry run satisfies `p` when the per-attempt events and
all retry-wait events do. -/
theorem requestWithRetryGo_all (close : Nat → Bool) (req : Nat → GrpcStatus × List Event)
    (p : Event → Bool)
    (hreq : ∀ j, ((req j).2).all p = true)
    (hwait : ∀ j full, p (Event.retryWait j full) = true) :
    ∀ fuel i s, ((RequestWithRetryGo close req i fuel s).2).all p = true := by
  intro fuel
  induction fuel with
  | zero =>
    intro i s
    simp [RequestWithRetryGo]
  | succ n ih =>
    intro i s
    by_cases hc : close i = true
    · simp [RequestWithRetryGo, hc]
    · by_cases hok : (req i).1.isOk = true
      · simpa [RequestWithRetryGo, hc, hok] using hreq i
      · simp only [RequestWithRetryGo, hc, hok, if_false, Bool.false_eq_true]
        simp [List.all_append, hreq i, hwait, ih]

/-- A retry-wait event recorded after attempt `j` carries `full = !close (j+1)`:
the inter-attempt wait runs to its full expiry exactly when mClose is still
false when it ends.  Requires that the attempts themselves produce no
retry-wait events. -/
theorem requestWithRetryGo_wait_full (close : Nat → Bool) (req : Nat → GrpcStatus × List Event)
    (hreq : ∀ j k full, Event.retryWait k full ∉ (req j).2) :
    ∀ fuel i s j full, Event.retryWait j full ∈ (RequestWithRetryGo close req i fuel s).2 →
      full = !close (j + 1) := by
  intro fuel
  induction fuel with
  | zero =>
    intro i s j full h
    simp [RequestWithRetryGo] at h
  | succ n ih =>
    intro i s j full h
    by_cases hc : close i = true
    · simp [RequestWithRetryGo, hc] at h
    · by_cases hok : (req i).1.isOk = true
      · simp only [RequestWithRetryGo, hc, hok] at h
        simp only [Bool.false_eq_true, if_false, if_true] at h
        exact absurd h (hreq i j full)
      · simp only [RequestWithRetryGo, hc, hok, Bool.false_eq_true, if_false] at h
        rcases List.mem_append.mp h with h1 | h1
        · exact absurd h1 (hreq i j full)
        · rcases List.mem_cons.mp h1 with h2 | h2
          · cases h2
            rfl
          · exact ih (i + 1) (req i).1 j full h2

/-- Once mClose is observed at the top of a retry iteration, the loop returns
the WrongState status immediately: no further attempt, no further wait. -/
theorem requestWithRetryGo_close (close : Nat → Bool) (req : Nat → GrpcStatus × List Event)
    (i fuel : Nat) (s : GrpcStatus) (hfuel : 0 < fuel) (hclosed : close i = true) :
    RequestWithRetryGo close req i fuel s = (wrongStateStatus, []) := by
  cases fuel with
  | zero => exact absurd hfuel (by simp)
  | succ n => simp [RequestWithRetryGo, hclosed]

/-- C7: after Close has set mClose, every in-progress or subsequently entered
retry loop stops at the next iteration top: no further request attempt is
made (the loop returns with an empty remaining trace), the caller receives
the WrongState "handler is closed" error, and a wait during which mClose
became true is recorded as interrupted rather than running to its expiry. -/
theorem retry_aborted_on_close (close : Nat → Bool) (req : Nat → GrpcStatus × List Event)
    (hreq : ∀ j k full, Event.retryWait k full ∉ (req j).2)
    (i0 : Nat) (hclosed : close i0 = true) :
    (∀ fuel s, 0 < fuel → RequestWithRetryGo close req i0 fuel s = (wrongStateStatus, []))
    ∧ (∀ j full, close (j + 1) = true →
        Event.retryWait j full ∈ (RequestWithRetry close req).2 → full = false)
    ∧ wrongStateStatus = ConvertAosErrorToGrpcStatus
        { kind := AosErrorKind.eWrongState, message := "handler is closed" } := by
  refine ⟨fun fuel s h => requestWithRetryGo_close close req i0 fuel s h hclosed, ?_, rfl⟩
  intro j full hc hmem
  have hfull := requestWithRetryGo_wait_full close req hreq cRequestRetryMaxTry 0
    GrpcStatus.OK j full hmem
  rw [hc] at hfull
  simpa using hfull

/-- Witness for C7: with mClose already true, the retry loop makes no attempt
and returns the WrongState status. -/
theorem retry_aborted_on_close_witness :
    RequestWithRetryGo (fun _ => true) (fun _ => (GrpcStatus.OK, ([] : List Event)))
      0 cRequestRetryMaxTry GrpcStatus.OK = (wrongStateStatus, []) :=
  (retry_aborted_on_close (fun _ => true) (fun _ => (GrpcStatus.OK, []))
    (fun _ _ _ h => by simp at h) 0 rfl).1 cRequestRetryMaxTry GrpcStatus.OK (by decide)

/-- C2 (amended): with no shutdown, RequestWithRetry retries every non-OK
attempt outcome regardless of its error kind, making up to
cRequestRetryMaxTry = 3 attempts with full cRequestRetryTimeoutSec = 10 s
waits after each failed attempt, and surfaces the last attempt's status; an
OK outcome returns immediately with no retry. -/
theorem retry_retries_every_error (close : Nat → Bool) (req : Nat → GrpcStatus × List Event)
    (h : ∀ i, close i = false) :
    RequestWithRetry close req =
      (if (req 0).1.isOk then req 0
       else if (req 1).1.isOk then
         ((req 1).1, (req 0).2 ++ Event.retryWait 0 true :: (req 1).2)
       else if (req 2).1.isOk then
         ((req 2).1, (req 0).2 ++ Event.retryWait 0 true ::
           ((req 1).2 ++ Event.retryWait 1 true :: (req 2).2))
       else
         ((req 2).1, (req 0).2 ++ Event.retryWait 0 true ::
           ((req 1).2 ++ Event.retryWait 1 true ::
             ((req 2).2 ++ [Event.retryWait 2 true]))))
    ∧ cRequestRetryMaxTry = 3 ∧ cRequestRetryTimeoutSec = 10 := by
  refine ⟨?_, rfl, rfl⟩
  have h3 : cRequestRetryMaxTry = Nat.succ (Nat.succ (Nat.succ 0)) := rfl
  rw [RequestWithRetry, h3]
  by_cases h0 : (req 0).1.isOk = true <;> by_cases h1 : (req 1).1.isOk = true <;>
    by_cases h2 : (req 2).1.isOk = true <;>
    simp [RequestWithRetryGo, h, h0, h1, h2]

/-- Witness for C2 (amended): at a concrete request whose attempts fail with
NotFound, the loop performs all three attempts and surfaces the last status. -/
theorem retry_retries_every_error_witness :
    RequestWithRetry (fun _ => false)
        (fun _ => (ConvertAosErrorToGrpcStatus cStreamNotFoundError, ([] : List Event)))
      = (ConvertAosErrorToGrpcStatus cStreamNotFoundError,
          [Event.retryWait 0 true, Event.retryWait 1 true, Event.retryWait 2 true]) := by
  have hmain := (retry_retries_every_error (fun _ => false)
    (fun _ => (ConvertAosErrorToGrpcStatus cStreamNotFoundError, ([] : List Event)))
    (fun _ => rfl)).1
  rw [hmain]
  decide

/-- Environment refuting C2 as stated: every forwarded attempt returns the
non-Unavailable error kind InvalidArgument. -/
def envInvalidArg : Env :=
  { demoEnv with remote := fun _ _ _ => { code := GrpcCode.invalidArgument, message := "bad" } }

/-- C2 (counterexample): a forwarded PauseNode whose first attempt returns
InvalidArgument — a kind other than Unavailable / stream-closed — is retried
anyway: three frames are sent and the status surfaces only after the third
attempt, refuting "any other non-OK error kind returned by one attempt is
surfaced to the caller immediately, with no further attempt". -/
theorem retry_nonretryable_kind_counterexample :
    ((forwardCall envInvalidArg RemoteOp.pauseNode "node1" cDefaultTimeoutSec).2.countP
        (fun ev => ev.isForward)) = 3
    ∧ (forwardCall envInvalidArg RemoteOp.pauseNode "node1" cDefaultTimeoutSec).1 =
        { code := GrpcCode.invalidArgument, message := "bad" }
    ∧ envInvalidArg.remote RemoteOp.pauseNode "node1" 0 =
        { code := GrpcCode.invalidArgument, message := "bad" }
    ∧ GrpcCode.invalidArgument ≠ GrpcCode.unavailable := by
  decide

/-- Environment for C9: the local provision manager fails with eFailed. -/
def envProvFail : Env :=
  { demoEnv with
      provGetCertTypes := ({ kind := AosErrorKind.eFailed, message := "failed" }, []) }

/-- C9: when GetCertTypes targets the local node and the provision manager
fails, the code returns the NotFound "stream not found" status — not an
Internal (collaborator-failure) status as the spec's error taxonomy requires:
the collaborator error is computed and logged but cStreamNotFoundError is
returned in its place. -/
theorem get_cert_types_local_failure_status :
    (GetCertTypes envProvFail "main").1 = ConvertAosErrorToGrpcStatus cStreamNotFoundError
    ∧ (GetCertTypes envProvFail "main").1.code = GrpcCode.notFound
    ∧ GrpcCode.notFound ≠ GrpcCode.internal
    ∧ (GetCertTypes envProvFail "main").2.2 = [Event.localGetCertTypes] := by
  decide

/-- C10: the public RegisterNode admits exactly the Unprovisioned status, the
protected RegisterNode admits exactly Provisioned and Paused, and no node
status is admitted by both endpoints. -/
theorem register_node_allowed_statuses_disjoint :
    (∀ st, publicRegisterNodeAdmits st = (st == NodeStatus.unprovisioned))
    ∧ (∀ st, protectedRegisterNodeAdmits st
        = (st == NodeStatus.provisioned || st == NodeStatus.paused))
    ∧ (∀ st, (publicRegisterNodeAdmits st && protectedRegisterNodeAdmits st) = false) := by
  refine ⟨?_, ?_, ?_⟩ <;> intro st <;> cases st <;> rfl

/-- The node id a forward event targets, if any. -/
def Event.forwardTo : Event → Option String
  | Event.forward n _ _ => some n
  | _ => Option.none

/-- The per-call timeout a forward event carries, if any. -/
def Event.forwardTimeout : Event → Option Nat
  | Event.forward _ _ t => some t
  | _ => Option.none

/-- Every event of one forwarded attempt satisfies `p` when the forward frame
itself does. -/
theorem forwardAttempt_all (e : Env) (op : RemoteOp) (nodeID : String) (t : Nat)
    (p : Event → Bool) (hp : p (Event.forward nodeID op t) = true) :
    ∀ i, ((forwardAttempt e op nodeID t i).2).all p = true := by
  intro i
  unfold forwardAttempt
  split <;> simp [hp]

/-- Every event of a forwarded call satisfies `p` when the forward frame and
all retry-wait events do. -/
theorem forwardCall_all (e : Env) (op : RemoteOp) (nodeID : String) (t : Nat)
    (p : Event → Bool) (hp : p (Event.forward nodeID op t) = true)
    (hw : ∀ j full, p (Event.retryWait j full) = true) :
    ((forwardCall e op nodeID t).2).all p = true :=
  requestWithRetryGo_all e.close (forwardAttempt e op nodeID t) p
    (forwardAttempt_all e op nodeID t p hp) hw cRequestRetryMaxTry 0 GrpcStatus.OK

/-- Every event of SetNodeStatus satisfies `p` when both status-recording
event shapes do. -/
theorem setNodeStatus_all (e : Env) (nodeID : String) (st : NodeStatus)
    (p : Event → Bool) (h1 : p (Event.nodeInfoProviderSetStatus st) = true)
    (h2 : ∀ id, p (Event.nodeManagerSetStatus id st) = true) :
    ((SetNodeStatus e nodeID st).2).all p = true := by
  simp only [SetNodeStatus]
  split_ifs <;> simp [h1, h2]

/-- When the request targets another node, SetNodeStatus only records the
status in the node manager, under the request's own node id. -/
theorem setNodeStatus_remote_trace (e : Env) (nodeID : String) (st : NodeStatus)
    (h : ProcessOnThisNode e nodeID = false) :
    (SetNodeStatus e nodeID st).2 = [Event.nodeManagerSetStatus nodeID st] := by
  have hh := h
  simp only [ProcessOnThisNode, Bool.or_eq_false_iff] at hh
  simp [SetNodeStatus, h, hh.1]

/-- Well-formedness of one trace event of a forwarded request targeting
`nodeID`: no local-collaborator execution, and any forwarded frame goes to
the stream handler looked up by that node id. -/
def remoteTraceOk (nodeID : String) (ev : Event) : Bool :=
  !ev.isLocalExec && (!ev.isForward || ev.forwardTo == some nodeID)

/-- Every event of a forwarded call to `nodeID` is remote-trace-ok. -/
theorem forwardCall_remoteTraceOk (e : Env) (op : RemoteOp) (nodeID : String) (t : Nat) :
    ((forwardCall e op nodeID t).2).all (remoteTraceOk nodeID) = true :=
  forwardCall_all e op nodeID t (remoteTraceOk nodeID)
    (by simp [remoteTraceOk, Event.isLocalExec, Event.isForward, Event.forwardTo])
    (fun j full => by simp [remoteTraceOk, Event.isLocalExec, Event.isForward])

/-- When the request targets this node, SetNodeStatus executes against the
node-info provider: its trace contains that local invocation. -/
theorem setNodeStatus_local_mem (e : Env) (nodeID : String) (st : NodeStatus)
    (h : ProcessOnThisNode e nodeID = true) :
    Event.nodeInfoProviderSetStatus st ∈ (SetNodeStatus e nodeID st).2 := by
  simp only [SetNodeStatus, h]
  split_ifs <;> simp

/-- PauseNode on this node: no frame is forwarded and the pause is executed
against the local node-info provider. -/
theorem pauseNode_local (e : Env) (nodeID : String) (h : ProcessOnThisNode e nodeID = true) :
    ((PauseNode e nodeID).2.2).all (fun ev => !ev.isForward) = true
    ∧ Event.nodeInfoProviderSetStatus NodeStatus.paused ∈ (PauseNode e nodeID).2.2 := by
  simp only [PauseNode, h, Bool.not_true, Bool.false_eq_true, if_false]
  exact ⟨setNodeStatus_all e nodeID NodeStatus.paused _ rfl (fun _ => rfl),
    setNodeStatus_local_mem e nodeID NodeStatus.paused h⟩

/-- PauseNode on another node: nothing is executed against local
collaborators and every forwarded frame targets the request's node id. -/
theorem pauseNode_remote (e : Env) (nodeID : String) (h : ProcessOnThisNode e nodeID = false) :
    ((PauseNode e nodeID).2.2).all (remoteTraceOk nodeID) = true := by
  simp only [PauseNode, h, Bool.not_false, if_true]
  split
  · exact forwardCall_remoteTraceOk e RemoteOp.pauseNode nodeID cDefaultTimeoutSec
  · simp [List.all_append, forwardCall_remoteTraceOk,
      setNodeStatus_remote_trace e nodeID NodeStatus.paused h,
      remoteTraceOk, Event.isLocalExec, Event.isForward]

/-- ResumeNode on this node: no frame is forwarded and the resume is executed
against the local node-info provider. -/
theorem resumeNode_local (e : Env) (nodeID : String) (h : ProcessOnThisNode e nodeID = true) :
    ((ResumeNode e nodeID).2.2).all (fun ev => !ev.isForward) = true
    ∧ Event.nodeInfoProviderSetStatus NodeStatus.provisioned ∈ (ResumeNode e nodeID).2.2 := by
  simp only [ResumeNode, h, Bool.not_true, Bool.false_eq_true, if_false]
  exact ⟨setNodeStatus_all e nodeID NodeStatus.provisioned _ rfl (fun _ => rfl),
    setNodeStatus_local_mem e nodeID NodeStatus.provisioned h⟩

/-- ResumeNode on another node: no local execution; frames target the node. -/
theorem resumeNode_remote (e : Env) (nodeID : String) (h : ProcessOnThisNode e nodeID = false) :
    ((ResumeNode e nodeID).2.2).all (remoteTraceOk nodeID) = true := by
  simp only [ResumeNode, h, Bool.not_false, if_true]
  split
  · exact forwardCall_remoteTraceOk e RemoteOp.resumeNode nodeID cDefaultTimeoutSec
  · simp [List.all_append, forwardCall_remoteTraceOk,
      setNodeStatus_remote_trace e nodeID NodeStatus.provisioned h,
      remoteTraceOk, Event.isLocalExec, Event.isForward]

/-- GetCertTypes on this node: no frame forwarded; provision manager hit. -/
theorem getCertTypes_local (e : Env) (nodeID : String) (h : ProcessOnThisNode e nodeID = true) :
    ((GetCertTypes e nodeID).2.2).all (fun ev => !ev.isForward) = true
    ∧ Event.localGetCertTypes ∈ (GetCertTypes e nodeID).2.2 := by
  simp only [GetCertTypes, h, Bool.not_true, Bool.false_eq_true, if_false]
  split_ifs <;> simp [Event.isForward]

/-- GetCertTypes on another node: no local execution; frames target the node. -/
theorem getCertTypes_remote (e : Env) (nodeID : String) (h : ProcessOnThisNode e nodeID = false) :
    ((GetCertTypes e nodeID).2.2).all (remoteTraceOk nodeID) = true := by
  simp only [GetCertTypes, h, Bool.not_false, if_true]
  exact forwardCall_remoteTraceOk e RemoteOp.getCertTypes nodeID cDefaultTimeoutSec

/-- StartProvisioning on this node: no frame forwarded; provision manager hit. -/
theorem startProvisioning_local (e : Env) (nodeID password : String)
    (h : ProcessOnThisNode e nodeID = true) :
    ((StartProvisioning e nodeID password).2.2).all (fun ev => !ev.isForward) = true
    ∧ Event.localStartProvisioning password ∈ (StartProvisioning e nodeID password).2.2 := by
  simp [StartProvisioning, h, Event.isForward]

/-- StartProvisioning on another node: no local execution; frames target it. -/
theorem startProvisioning_remote (e : Env) (nodeID password : String)
    (h : ProcessOnThisNode e nodeID = false) :
    ((StartProvisioning e nodeID password).2.2).all (remoteTraceOk nodeID) = true := by
  simp only [StartProvisioning, h, Bool.not_false, if_true]
  exact forwardCall_remoteTraceOk e RemoteOp.startProvisioning nodeID cProvisioningTimeoutSec

/-- FinishProvisioning on this node: no frame forwarded; provision manager hit. -/
theorem finishProvisioning_local (e : Env) (nodeID password : String)
    (h : ProcessOnThisNode e nodeID = true) :
    ((FinishProvisioning e nodeID password).2.2).all (fun ev => !ev.isForward) = true
    ∧ Event.localFinishProvisioning password ∈ (FinishProvisioning e nodeID password).2.2 := by
  have hs := setNodeStatus_all e nodeID NodeStatus.provisioned
    (fun ev => !ev.isForward) rfl (fun _ => rfl)
  simp only [FinishProvisioning, h, Bool.not_true, Bool.false_eq_true, if_false]
  split_ifs <;> simp_all [Event.isForward]

/-- FinishProvisioning on another node: no local execution; frames target it. -/
theorem finishProvisioning_remote (e : Env) (nodeID password : String)
    (h : ProcessOnThisNode e nodeID = false) :
    ((FinishProvisioning e nodeID password).2.2).all (remoteTraceOk nodeID) = true := by
  simp only [FinishProvisioning, h, Bool.not_false, if_true]
  split
  · exact forwardCall_remoteTraceOk e RemoteOp.finishProvisioning nodeID cProvisioningTimeoutSec
  · simp [List.all_append, forwardCall_remoteTraceOk,
      setNodeStatus_remote_trace e nodeID NodeStatus.provisioned h,
      remoteTraceOk, Event.isLocalExec, Event.isForward]

/-- Deprovision on this node: no frame forwarded; provision manager hit. -/
theorem deprovision_local (e : Env) (nodeID password : String)
    (h : ProcessOnThisNode e nodeID = true) :
    ((Deprovision e nodeID password).2.2).all (fun ev => !ev.isForward) = true
    ∧ Event.localDeprovision password ∈ (Deprovision e nodeID password).2.2 := by
  have hs := setNodeStatus_all e nodeID NodeStatus.unprovisioned
    (fun ev => !ev.isForward) rfl (fun _ => rfl)
  simp only [Deprovision, h, Bool.not_true, Bool.false_eq_true, if_false]
  split_ifs <;> simp_all [Event.isForward]

/-- Deprovision on another node: no local execution; frames target it. -/
theorem deprovision_remote (e : Env) (nodeID password : String)
    (h : ProcessOnThisNode e nodeID = false) :
    ((Deprovision e nodeID password).2.2).all (remoteTraceOk nodeID) = true := by
  simp only [Deprovision, h, Bool.not_false, if_true]
  split
  · exact forwardCall_remoteTraceOk e RemoteOp.deprovision nodeID cProvisioningTimeoutSec
  · simp [List.all_append, forwardCall_remoteTraceOk,
      setNodeStatus_remote_trace e nodeID NodeStatus.unprovisioned h,
      remoteTraceOk, Event.isLocalExec, Event.isForward]

/-- CreateKey on this node: no frame is forwarded in any branch. -/
theorem createKey_local (e : Env) (nodeID certType subjectReq password : String)
    (h : ProcessOnThisNode e nodeID = true) :
    ((CreateKey e nodeID certType subjectReq password).2.2).all
      (fun ev => !ev.isForward) = true := by
  simp only [CreateKey, h, Bool.not_true, Bool.false_eq_true, if_false]
  split_ifs <;> simp [Event.isForward]

/-- CreateKey on another node: no local execution in any branch; frames
target the request's node id. -/
theorem createKey_remote (e : Env) (nodeID certType subjectReq password : String)
    (h : ProcessOnThisNode e nodeID = false) :
    ((CreateKey e nodeID certType subjectReq password).2.2).all
      (remoteTraceOk nodeID) = true := by
  simp only [CreateKey, h, Bool.not_false, if_true]
  split_ifs <;>
    simp [List.all_append, forwardCall_remoteTraceOk,
      remoteTraceOk, Event.isLocalExec, Event.isForward]

/-- ApplyCert on this node: no frame forwarded; provision manager hit. -/
theorem applyCert_local (e : Env) (nodeID certType certPem : String)
    (h : ProcessOnThisNode e nodeID = true) :
    ((ApplyCert e nodeID certType certPem).2.2).all (fun ev => !ev.isForward) = true
    ∧ Event.localApplyCert certType ∈ (ApplyCert e nodeID certType certPem).2.2 := by
  simp only [ApplyCert, h, Bool.not_true, Bool.false_eq_true, if_false]
  split_ifs <;> simp [Event.isForward]

/-- ApplyCert on another node: no local execution; frames target the node. -/
theorem applyCert_remote (e : Env) (nodeID certType certPem : String)
    (h : ProcessOnThisNode e nodeID = false) :
    ((ApplyCert e nodeID certType certPem).2.2).all (remoteTraceOk nodeID) = true := by
  simp only [ApplyCert, h, Bool.not_false, if_true]
  exact forwardCall_remoteTraceOk e RemoteOp.applyCert nodeID cDefaultTimeoutSec

/-- Environment refuting C1 as stated: the public
IAMPublicNodesService::GetNodeInfo RPC carries a node_id, yet with node id
"node1" — neither empty nor the server's own id "main" — it is served from
the local node manager and no frame is forwarded, contradicting "otherwise it
is forwarded through the node-stream handler looked up by that node_id". -/
theorem public_get_node_info_counterexample :
    ("node1" == "") = false
    ∧ ("node1" == demoEnv.selfNodeID) = false
    ∧ (PublicGetNodeInfo demoEnv "node1").1 = GrpcStatus.OK
    ∧ (PublicGetNodeInfo demoEnv "node1").2.2 = [Event.nodeManagerGetNodeInfo "node1"]
    ∧ ((PublicGetNodeInfo demoEnv "node1").2.2).all (fun ev => !ev.isForward) = true := by
  decide

/-- C1 (amended): every protected dispatched RPC carrying a node_id
(PauseNode, ResumeNode, GetCertTypes, StartProvisioning, FinishProvisioning,
Deprovision, CreateKey, ApplyCert) executes against local collaborators
exactly when the node id is empty or equals the server's own node id (the
ProcessOnThisNode condition); otherwise it is forwarded to the stream handler
looked up under that node id, and no request is executed both locally and
remotely.  The public GetNodeInfo(node_id) RPC is the exception: it is always
served from the local node-manager store, for any node id, and is never
forwarded. -/
theorem dispatch_fidelity (e : Env) (nodeID certType subjectReq password certPem : String) :
    ProcessOnThisNode e nodeID = (nodeID == "" || nodeID == e.selfNodeID)
    ∧ (ProcessOnThisNode e nodeID = true →
        ((PauseNode e nodeID).2.2).all (fun ev => !ev.isForward) = true
        ∧ Event.nodeInfoProviderSetStatus NodeStatus.paused ∈ (PauseNode e nodeID).2.2
        ∧ ((ResumeNode e nodeID).2.2).all (fun ev => !ev.isForward) = true
        ∧ Event.nodeInfoProviderSetStatus NodeStatus.provisioned ∈ (ResumeNode e nodeID).2.2
        ∧ ((GetCertTypes e nodeID).2.2).all (fun ev => !ev.isForward) = true
        ∧ Event.localGetCertTypes ∈ (GetCertTypes e nodeID).2.2
        ∧ ((StartProvisioning e nodeID password).2.2).all (fun ev => !ev.isForward) = true
        ∧ Event.localStartProvisioning password ∈ (StartProvisioning e nodeID password).2.2
        ∧ ((FinishProvisioning e nodeID password).2.2).all (fun ev => !ev.isForward) = true
        ∧ Event.localFinishProvisioning password ∈ (FinishProvisioning e nodeID password).2.2
        ∧ ((Deprovision e nodeID password).2.2).all (fun ev => !ev.isForward) = true
        ∧ Event.localDeprovision password ∈ (Deprovision e nodeID password).2.2
        ∧ ((CreateKey e nodeID certType subjectReq password).2.2).all
            (fun ev => !ev.isForward) = true
        ∧ ((ApplyCert e nodeID certType certPem).2.2).all (fun ev => !ev.isForward) = true
        ∧ Event.localApplyCert certType ∈ (ApplyCert e nodeID certType certPem).2.2)
    ∧ (ProcessOnThisNode e nodeID = false →
        ((PauseNode e nodeID).2.2).all (remoteTraceOk nodeID) = true
        ∧ ((ResumeNode e nodeID).2.2).all (remoteTraceOk nodeID) = true
        ∧ ((GetCertTypes e nodeID).2.2).all (remoteTraceOk nodeID) = true
        ∧ ((StartProvisioning e nodeID password).2.2).all (remoteTraceOk nodeID) = true
        ∧ ((FinishProvisioning e nodeID password).2.2).all (remoteTraceOk nodeID) = true
        ∧ ((Deprovision e nodeID password).2.2).all (remoteTraceOk nodeID) = true
        ∧ ((CreateKey e nodeID certType subjectReq password).2.2).all
            (remoteTraceOk nodeID) = true
        ∧ ((ApplyCert e nodeID certType certPem).2.2).all (remoteTraceOk nodeID) = true)
    ∧ (PublicGetNodeInfo e nodeID).2.2 = [Event.nodeManagerGetNodeInfo nodeID] := by
  refine ⟨rfl, fun h => ?_, fun h => ?_, ?_⟩
  · exact ⟨(pauseNode_local e nodeID h).1, (pauseNode_local e nodeID h).2,
      (resumeNode_local e nodeID h).1, (resumeNode_local e nodeID h).2,
      (getCertTypes_local e nodeID h).1, (getCertTypes_local e nodeID h).2,
      (startProvisioning_local e nodeID password h).1,
      (startProvisioning_local e nodeID password h).2,
      (finishProvisioning_local e nodeID password h).1,
      (finishProvisioning_local e nodeID password h).2,
      (deprovision_local e nodeID password h).1, (deprovision_local e nodeID password h).2,
      createKey_local e nodeID certType subjectReq password h,
      (applyCert_local e nodeID certType certPem h).1,
      (applyCert_local e nodeID certType certPem h).2⟩
  · exact ⟨pauseNode_remote e nodeID h, resumeNode_remote e nodeID h,
      getCertTypes_remote e nodeID h, startProvisioning_remote e nodeID password h,
      finishProvisioning_remote e nodeID password h, deprovision_remote e nodeID password h,
      createKey_remote e nodeID certType subjectReq password h,
      applyCert_remote e nodeID certType certPem h⟩
  · simp only [PublicGetNodeInfo]
    split <;> rfl

/-- Witness for C1 (amended): on the canonical environment, a self-targeted
StartProvisioning executes against the local provision manager, and a
StartProvisioning for a secondary node produces a remote-only trace. -/
theorem dispatch_fidelity_witness :
    Event.localStartProvisioning "pw" ∈ (StartProvisioning demoEnv "main" "pw").2.2
    ∧ ((StartProvisioning demoEnv "node1" "pw").2.2).all (remoteTraceOk "node1") = true
    ∧ (PublicGetNodeInfo demoEnv "node1").2.2 = [Event.nodeManagerGetNodeInfo "node1"] :=
  ⟨((dispatch_fidelity demoEnv "main" "ct" "subj" "pw" "pem").2.1
      (by decide)).2.2.2.2.2.2.2.1,
   ((dispatch_fidelity demoEnv "node1" "ct" "subj" "pw" "pem").2.2.1
      (by decide)).2.2.2.1,
   (dispatch_fidelity demoEnv "node1" "ct" "subj" "pw" "pem").2.2.2⟩

/-- Every forwarded frame in the event carries the per-call timeout `t`
(vacuously true for non-forward events). -/
def timeoutOkP (t : Nat) (ev : Event) : Bool :=
  !ev.isForward || ev.forwardTimeout == some t

/-- A trace without forwarded frames trivially satisfies any timeout bound. -/
theorem all_timeout_of_all_not_forward (t : Nat) (l : List Event)
    (h : l.all (fun ev => !ev.isForward) = true) : l.all (timeoutOkP t) = true := by
  simp only [List.all_eq_true] at h ⊢
  intro ev hev
  simp [timeoutOkP, h ev hev]

/-- Every frame of a forwarded call carries that call's timeout. -/
theorem forwardCall_timeoutOk (e : Env) (op : RemoteOp) (nodeID : String) (t : Nat) :
    ((forwardCall e op nodeID t).2).all (timeoutOkP t) = true :=
  forwardCall_all e op nodeID t (timeoutOkP t)
    (by simp [timeoutOkP, Event.isForward, Event.forwardTimeout])
    (fun j full => by simp [timeoutOkP, Event.isForward])

/-- All PauseNode frames carry the default 60 s timeout. -/
theorem pauseNode_timeoutOk (e : Env) (nodeID : String) :
    ((PauseNode e nodeID).2.2).all (timeoutOkP cDefaultTimeoutSec) = true := by
  by_cases h : ProcessOnThisNode e nodeID = true
  · exact all_timeout_of_all_not_forward _ _ (pauseNode_local e nodeID h).1
  · have h2 : ProcessOnThisNode e nodeID = false := by simpa using h
    simp only [PauseNode, h2, Bool.not_false, if_true]
    split
    · exact forwardCall_timeoutOk e RemoteOp.pauseNode nodeID cDefaultTimeoutSec
    · simp [List.all_append, forwardCall_timeoutOk,
        setNodeStatus_remote_trace e nodeID NodeStatus.paused h2, timeoutOkP, Event.isForward]

/-- All ResumeNode frames carry the default 60 s timeout. -/
theorem resumeNode_timeoutOk (e : Env) (nodeID : String) :
    ((ResumeNode e nodeID).2.2).all (timeoutOkP cDefaultTimeoutSec) = true := by
  by_cases h : ProcessOnThisNode e nodeID = true
  · exact all_timeout_of_all_not_forward _ _ (resumeNode_local e nodeID h).1
  · have h2 : ProcessOnThisNode e nodeID = false := by simpa using h
    simp only [ResumeNode, h2, Bool.not_false, if_true]
    split
    · exact forwardCall_timeoutOk e RemoteOp.resumeNode nodeID cDefaultTimeoutSec
    · simp [List.all_append, forwardCall_timeoutOk,
        setNodeStatus_remote_trace e nodeID NodeStatus.provisioned h2, timeoutOkP, Event.isForward]

/-- All GetCertTypes frames carry the default 60 s timeout. -/
theorem getCertTypes_timeoutOk (e : Env) (nodeID : String) :
    ((GetCertTypes e nodeID).2.2).all (timeoutOkP cDefaultTimeoutSec) = true := by
  by_cases h : ProcessOnThisNode e nodeID = true
  · exact all_timeout_of_all_not_forward _ _ (getCertTypes_local e nodeID h).1
  · have h2 : ProcessOnThisNode e nodeID = false := by simpa using h
    simp only [GetCertTypes, h2, Bool.not_false, if_true]
    exact forwardCall_timeoutOk e RemoteOp.getCertTypes nodeID cDefaultTimeoutSec

/-- All StartProvisioning frames carry the provisioning 300 s timeout. -/
theorem startProvisioning_timeoutOk (e : Env) (nodeID password : String) :
    ((StartProvisioning e nodeID password).2.2).all
      (timeoutOkP cProvisioningTimeoutSec) = true := by
  by_cases h : ProcessOnThisNode e nodeID = true
  · exact all_timeout_of_all_not_forward _ _ (startProvisioning_local e nodeID password h).1
  · have h2 : ProcessOnThisNode e nodeID = false := by simpa using h
    simp only [StartProvisioning, h2, Bool.not_false, if_true]
    exact forwardCall_timeoutOk e RemoteOp.startProvisioning nodeID cProvisioningTimeoutSec

/-- All FinishProvisioning frames carry the provisioning 300 s timeout. -/
theorem finishProvisioning_timeoutOk (e : Env) (nodeID password : String) :
    ((FinishProvisioning e nodeID password).2.2).all
      (timeoutOkP cProvisioningTimeoutSec) = true := by
  by_cases h : ProcessOnThisNode e nodeID = true
  · exact all_timeout_of_all_not_forward _ _ (finishProvisioning_local e nodeID password h).1
  · have h2 : ProcessOnThisNode e nodeID = false := by simpa using h
    simp only [FinishProvisioning, h2, Bool.not_false, if_true]
    split
    · exact forwardCall_timeoutOk e RemoteOp.finishProvisioning nodeID cProvisioningTimeoutSec
    · simp [List.all_append, forwardCall_timeoutOk,
        setNodeStatus_remote_trace e nodeID NodeStatus.provisioned h2, timeoutOkP, Event.isForward]

/-- All Deprovision frames carry the provisioning 300 s timeout. -/
theorem deprovision_timeoutOk (e : Env) (nodeID password : String) :
    ((Deprovision e nodeID password).2.2).all (timeoutOkP cProvisioningTimeoutSec) = true := by
  by_cases h : ProcessOnThisNode e nodeID = true
  · exact all_timeout_of_all_not_forward _ _ (deprovision_local e nodeID password h).1
  · have h2 : ProcessOnThisNode e nodeID = false := by simpa using h
    simp only [Deprovision, h2, Bool.not_false, if_true]
    split
    · exact forwardCall_timeoutOk e RemoteOp.deprovision nodeID cProvisioningTimeoutSec
    · simp [List.all_append, forwardCall_timeoutOk,
        setNodeStatus_remote_trace e nodeID NodeStatus.unprovisioned h2, timeoutOkP, Event.isForward]

/-- All CreateKey frames carry the default 60 s timeout. -/
theorem createKey_timeoutOk (e : Env) (nodeID certType subjectReq password : String) :
    ((CreateKey e nodeID certType subjectReq password).2.2).all
      (timeoutOkP cDefaultTimeoutSec) = true := by
  by_cases h : ProcessOnThisNode e nodeID = true
  · exact all_timeout_of_all_not_forward _ _
      (createKey_local e nodeID certType subjectReq password h)
  · have h2 : ProcessOnThisNode e nodeID = false := by simpa using h
    simp only [CreateKey, h2, Bool.not_false, if_true]
    split_ifs <;>
      simp [List.all_append, forwardCall_timeoutOk, timeoutOkP, Event.isForward]

/-- All ApplyCert frames carry the default 60 s timeout. -/
theorem applyCert_timeoutOk (e : Env) (nodeID certType certPem : String) :
    ((ApplyCert e nodeID certType certPem).2.2).all (timeoutOkP cDefaultTimeoutSec) = true := by
  by_cases h : ProcessOnThisNode e nodeID = true
  · exact all_timeout_of_all_not_forward _ _ (applyCert_local e nodeID certType certPem h).1
  · have h2 : ProcessOnThisNode e nodeID = false := by simpa using h
    simp only [ApplyCert, h2, Bool.not_false, if_true]
    exact forwardCall_timeoutOk e RemoteOp.applyCert nodeID cDefaultTimeoutSec

/-- C8: the provisioning family (StartProvisioning, FinishProvisioning,
Deprovision) is forwarded with the 300-second provisioning timeout and every
other forwarded operation (GetCertTypes, CreateKey, ApplyCert, PauseNode,
ResumeNode) with the 60-second default timeout; on the canonical forwarding
environment the frames are actually present with those timeouts. -/
theorem forwarded_operation_timeouts (e : Env)
    (nodeID certType subjectReq password certPem : String) :
    ((StartProvisioning e nodeID password).2.2).all
        (timeoutOkP cProvisioningTimeoutSec) = true
    ∧ ((FinishProvisioning e nodeID password).2.2).all
        (timeoutOkP cProvisioningTimeoutSec) = true
    ∧ ((Deprovision e nodeID password).2.2).all (timeoutOkP cProvisioningTimeoutSec) = true
    ∧ ((GetCertTypes e nodeID).2.2).all (timeoutOkP cDefaultTimeoutSec) = true
    ∧ ((CreateKey e nodeID certType subjectReq password).2.2).all
        (timeoutOkP cDefaultTimeoutSec) = true
    ∧ ((ApplyCert e nodeID certType certPem).2.2).all (timeoutOkP cDefaultTimeoutSec) = true
    ∧ ((PauseNode e nodeID).2.2).all (timeoutOkP cDefaultTimeoutSec) = true
    ∧ ((ResumeNode e nodeID).2.2).all (timeoutOkP cDefaultTimeoutSec) = true
    ∧ cProvisioningTimeoutSec = 300 ∧ cDefaultTimeoutSec = 60
    ∧ Event.forward "node1" RemoteOp.startProvisioning cProvisioningTimeoutSec
        ∈ (StartProvisioning demoEnv "node1" "pw").2.2
    ∧ Event.forward "node1" RemoteOp.pauseNode cDefaultTimeoutSec
        ∈ (PauseNode demoEnv "node1").2.2 :=
  ⟨startProvisioning_timeoutOk e nodeID password,
   finishProvisioning_timeoutOk e nodeID password,
   deprovision_timeoutOk e nodeID password,
   getCertTypes_timeoutOk e nodeID,
   createKey_timeoutOk e nodeID certType subjectReq password,
   applyCert_timeoutOk e nodeID certType certPem,
   pauseNode_timeoutOk e nodeID,
   resumeNode_timeoutOk e nodeID,
   rfl, rfl, by decide, by decide⟩

/-- When the request targets this node and both status collaborators succeed,
SetNodeStatus writes the status through the node-info provider and records it
in the node manager, succeeding unconditionally (no gating on the previous
status; the nodeinfoprovider tests pin that the provider-side write succeeds
from any state). -/
theorem setNodeStatus_succeeds (e : Env) (nodeID : String) (st : NodeStatus)
    (hl : ProcessOnThisNode e nodeID = true)
    (hinfo : ∀ s, e.nodeInfoSetStatus s = AosError.none)
    (hmgr : ∀ id s, e.nodeManagerSetStatus id s = AosError.none) :
    SetNodeStatus e nodeID st =
      (AosError.none,
        [Event.nodeInfoProviderSetStatus st,
         Event.nodeManagerSetStatus (if nodeID == "" then e.selfNodeID else nodeID) st]) := by
  simp [SetNodeStatus, hl, hinfo, hmgr, AosError.IsNone, AosError.none]

/-- C3 (counterexample): on the main node with current status Unprovisioned —
a from-state from which the table of spec section 4.3 forbids PauseNode —
PauseNode succeeds (transport OK, no error in the body) and changes the
node's status to Paused: the handlers never consult the current status, so
the illegal transition both succeeds and changes the status. -/
theorem pause_gating_counterexample :
    (PauseNode demoEnv "main").1 = GrpcStatus.OK
    ∧ (PauseNode demoEnv "main").2.1 = Option.none
    ∧ statusAfter NodeStatus.unprovisioned (PauseNode demoEnv "main").2.2 = NodeStatus.paused
    ∧ NodeStatus.unprovisioned ≠ NodeStatus.provisioned
    ∧ NodeStatus.paused ≠ NodeStatus.unprovisioned := by
  decide

/-- C3 (amended): the handlers perform no from-state gating.  For any current
status whatsoever, with succeeding collaborators, PauseNode sets the status
to Paused, ResumeNode and FinishProvisioning to Provisioned, Deprovision to
Unprovisioned, and StartProvisioning leaves it unchanged — each with
transport OK and an empty in-body error. -/
theorem transitions_ungated (e : Env) (nodeID password : String) (cur : NodeStatus)
    (hlocal : ProcessOnThisNode e nodeID = true)
    (hinfo : ∀ s, e.nodeInfoSetStatus s = AosError.none)
    (hmgr : ∀ id s, e.nodeManagerSetStatus id s = AosError.none)
    (hfin : (e.provFinish password).IsNone = true)
    (hdep : (e.provDeprovision password).IsNone = true) :
    (statusAfter cur (PauseNode e nodeID).2.2 = NodeStatus.paused
      ∧ (PauseNode e nodeID).1 = GrpcStatus.OK ∧ (PauseNode e nodeID).2.1 = Option.none)
    ∧ (statusAfter cur (ResumeNode e nodeID).2.2 = NodeStatus.provisioned
      ∧ (ResumeNode e nodeID).1 = GrpcStatus.OK ∧ (ResumeNode e nodeID).2.1 = Option.none)
    ∧ (statusAfter cur (FinishProvisioning e nodeID password).2.2 = NodeStatus.provisioned
      ∧ (FinishProvisioning e nodeID password).1 = GrpcStatus.OK
      ∧ (FinishProvisioning e nodeID password).2.1 = Option.none)
    ∧ (statusAfter cur (Deprovision e nodeID password).2.2 = NodeStatus.unprovisioned
      ∧ (Deprovision e nodeID password).1 = GrpcStatus.OK
      ∧ (Deprovision e nodeID password).2.1 = Option.none)
    ∧ (statusAfter cur (StartProvisioning e nodeID password).2.2 = cur) := by
  have hp := setNodeStatus_succeeds e nodeID NodeStatus.paused hlocal hinfo hmgr
  have hv := setNodeStatus_succeeds e nodeID NodeStatus.provisioned hlocal hinfo hmgr
  have hu := setNodeStatus_succeeds e nodeID NodeStatus.unprovisioned hlocal hinfo hmgr
  refine ⟨?_, ?_, ?_, ?_, ?_⟩
  · simp [PauseNode, hlocal, hp, statusAfter, AosError.IsNone, AosError.none]
  · simp [ResumeNode, hlocal, hv, statusAfter, AosError.IsNone, AosError.none]
  · have hfk : (e.provFinish password).kind = AosErrorKind.eNone := by
      simpa [AosError.IsNone] using hfin
    simp [FinishProvisioning, hlocal, hfk, hv, statusAfter, AosError.IsNone, AosError.none]
  · have hdk : (e.provDeprovision password).kind = AosErrorKind.eNone := by
      simpa [AosError.IsNone] using hdep
    simp [Deprovision, hlocal, hdk, hu, statusAfter, AosError.IsNone, AosError.none]
  · simp [StartProvisioning, hlocal, statusAfter]

/-- Witness for C3 (amended): from Unprovisioned on the canonical
environment, PauseNode yields status Paused. -/
theorem transitions_ungated_witness :
    statusAfter NodeStatus.unprovisioned (PauseNode demoEnv "main").2.2 = NodeStatus.paused :=
  ((transitions_ungated demoEnv "main" "pw" NodeStatus.unprovisioned (by decide)
    (fun _ => rfl) (fun _ _ => rfl) rfl rfl).1).1

/-- C4: for every locally executed provisioning-family or certificate
operation, a provision-manager failure is returned as a transport-level OK
status with the failure encoded in the structured error field of the
response body, never as a non-OK transport status. -/
theorem local_failures_in_band (e : Env) (nodeID password certType subjectReq certPem : String)
    (hlocal : ProcessOnThisNode e nodeID = true)
    (hsubj : (subjectReq == "") = false) :
    ((e.provStart password).IsNone = false →
      (StartProvisioning e nodeID password).1 = GrpcStatus.OK
      ∧ (StartProvisioning e nodeID password).2.1 = some (e.provStart password))
    ∧ ((e.provFinish password).IsNone = false →
      (FinishProvisioning e nodeID password).1 = GrpcStatus.OK
      ∧ (FinishProvisioning e nodeID password).2.1 = some (e.provFinish password))
    ∧ ((e.provDeprovision password).IsNone = false →
      (Deprovision e nodeID password).1 = GrpcStatus.OK
      ∧ (Deprovision e nodeID password).2.1 = some (e.provDeprovision password))
    ∧ ((e.provCreateKey certType subjectReq password).1.IsNone = false →
      (CreateKey e nodeID certType subjectReq password).1 = GrpcStatus.OK
      ∧ (CreateKey e nodeID certType subjectReq password).2.1.errorInfo
          = some (e.provCreateKey certType subjectReq password).1)
    ∧ ((e.provApplyCert certType certPem).1.IsNone = false →
      (ApplyCert e nodeID certType certPem).1 = GrpcStatus.OK
      ∧ (ApplyCert e nodeID certType certPem).2.1.errorInfo
          = some (e.provApplyCert certType certPem).1) := by
  refine ⟨fun h => ?_, fun h => ?_, fun h => ?_, fun h => ?_, fun h => ?_⟩
  · simp [StartProvisioning, hlocal, h]
  · simp [FinishProvisioning, hlocal, h]
  · simp [Deprovision, hlocal, h]
  · simp [CreateKey, hlocal, hsubj, h]
  · simp [ApplyCert, hlocal, h]

/-- Environment for the C4 witness: the provision manager fails on
StartProvisioning and ApplyCert. -/
def envLocalFail : Env :=
  { demoEnv with
      provStart := fun _ => { kind := AosErrorKind.eFailed, message := "start failed" },
      provApplyCert := fun _ _ =>
        ({ kind := AosErrorKind.eFailed, message := "apply failed" }, ("", "")) }

/-- Witness for C4: local StartProvisioning and ApplyCert failures yield
transport OK with the collaborator failure in the body. -/
theorem local_failures_in_band_witness :
    ((StartProvisioning envLocalFail "main" "pw").1 = GrpcStatus.OK
      ∧ (StartProvisioning envLocalFail "main" "pw").2.1
          = some { kind := AosErrorKind.eFailed, message := "start failed" })
    ∧ ((ApplyCert envLocalFail "main" "ct" "pem").1 = GrpcStatus.OK
      ∧ (ApplyCert envLocalFail "main" "ct" "pem").2.1.errorInfo
          = some { kind := AosErrorKind.eFailed, message := "apply failed" }) :=
  ⟨(local_failures_in_band envLocalFail "main" "pw" "ct" "subj" "pem"
      (by decide) (by decide)).1 (by decide),
   (local_failures_in_band envLocalFail "main" "pw" "ct" "subj" "pem"
      (by decide) (by decide)).2.2.2.2 (by decide)⟩

/-- The conversion loop either succeeds or fails with exactly the eNoMemory
error (both EmplaceBack and PushBack produce eNoMemory on a full array). -/
theorem convertPermissionsGo_shape (maxS maxP : Nat) :
    ∀ (perms : List (String × List (String × String))) (n : Nat),
      convertPermissionsGo maxS maxP perms n = Except.ok ()
      ∨ convertPermissionsGo maxS maxP perms n
          = Except.error { kind := AosErrorKind.eNoMemory, message := "no memory" } := by
  intro perms
  induction perms with
  | nil =>
    intro n
    left
    rfl
  | cons entry rest ih =>
    intro n
    simp only [convertPermissionsGo]
    split_ifs
    · right; rfl
    · right; rfl
    · exact ih (n + 1)

/-- With more entries than remaining capacity the conversion loop cannot
succeed: the EmplaceBack at index maxS fails. -/
theorem convertPermissionsGo_oversize (maxS maxP : Nat) :
    ∀ (perms : List (String × List (String × String))) (n : Nat),
      maxS < n + perms.length → n ≤ maxS →
      convertPermissionsGo maxS maxP perms n ≠ Except.ok () := by
  intro perms
  induction perms with
  | nil =>
    intro n h1 h2
    exfalso
    simp only [List.length_nil, Nat.add_zero] at h1
    omega
  | cons entry rest ih =>
    intro n h1 h2
    simp only [convertPermissionsGo]
    split_ifs with ha hb
    · simp
    · simp
    · apply ih (n + 1)
      · simp only [List.length_cons] at h1
        omega
      · omega

/-- Within both capacity bounds the conversion loop succeeds. -/
theorem convertPermissionsGo_ok (maxS maxP : Nat) :
    ∀ (perms : List (String × List (String × String))) (n : Nat),
      n + perms.length ≤ maxS → (∀ p ∈ perms, p.2.length ≤ maxP) →
      convertPermissionsGo maxS maxP perms n = Except.ok () := by
  intro perms
  induction perms with
  | nil =>
    intro n _ _
    rfl
  | cons entry rest ih =>
    intro n h1 h2
    have hn : ¬maxS ≤ n := by
      simp only [List.length_cons] at h1
      omega
    have he : ¬maxP < entry.2.length := by
      have := h2 entry (List.mem_cons_self entry rest)
      omega
    simp only [convertPermissionsGo, if_neg hn, if_neg he]
    apply ih
    · simp only [List.length_cons] at h1
      omega
    · exact fun p hp => h2 p (List.mem_cons_of_mem entry hp)

/-- C5: a RegisterInstance request whose permissions map exceeds the
cMaxNumServices capacity returns a non-OK ResourceExhausted transport status
with an empty trace — the permission handler is never invoked; a request
within the bounds whose collaborator succeeds returns OK with the
collaborator's secret in the response. -/
theorem register_instance_capacity (e : Env) (maxS maxP : Nat)
    (perms : List (String × List (String × String))) :
    (maxS < perms.length →
      (RegisterInstance e maxS maxP perms).1.code = GrpcCode.resourceExhausted
      ∧ (RegisterInstance e maxS maxP perms).1.isOk = false
      ∧ (RegisterInstance e maxS maxP perms).2.1 = Option.none
      ∧ (RegisterInstance e maxS maxP perms).2.2 = [])
    ∧ (perms.length ≤ maxS → (∀ p ∈ perms, p.2.length ≤ maxP) →
        e.permRegister.1.IsNone = true →
        (RegisterInstance e maxS maxP perms).1 = GrpcStatus.OK
        ∧ (RegisterInstance e maxS maxP perms).2.1 = some e.permRegister.2
        ∧ Event.permRegisterInstance ∈ (RegisterInstance e maxS maxP perms).2.2) := by
  constructor
  · intro h
    have hne := convertPermissionsGo_oversize maxS maxP perms 0 (by simpa using h)
      (Nat.zero_le _)
    rcases convertPermissionsGo_shape maxS maxP perms 0 with hok | herr
    · exact absurd hok hne
    · simp [RegisterInstance, herr, ConvertAosErrorToGrpcStatus, GrpcStatus.isOk]
  · intro h1 h2 h3
    have hok := convertPermissionsGo_ok maxS maxP perms 0 (by simpa using h1) h2
    simp [RegisterInstance, hok, h3]

/-- Witness for C5: with capacity 1, a two-service request is rejected with
ResourceExhausted and an empty trace; with capacity 2, a one-service request
succeeds with the collaborator's secret. -/
theorem register_instance_capacity_witness :
    ((RegisterInstance demoEnv 1 5 [("a", []), ("b", [])]).1.code = GrpcCode.resourceExhausted
      ∧ (RegisterInstance demoEnv 1 5 [("a", []), ("b", [])]).2.2 = [])
    ∧ ((RegisterInstance demoEnv 2 5 [("a", [("k", "v")])]).1 = GrpcStatus.OK
      ∧ (RegisterInstance demoEnv 2 5 [("a", [("k", "v")])]).2.1 = some demoEnv.permRegister.2
      ∧ demoEnv.permRegister.2 = "test-secret") :=
  ⟨⟨((register_instance_capacity demoEnv 1 5 [("a", []), ("b", [])]).1 (by decide)).1,
    ((register_instance_capacity demoEnv 1 5 [("a", []), ("b", [])]).1 (by decide)).2.2.2⟩,
   ⟨((register_instance_capacity demoEnv 2 5 [("a", [("k", "v")])]).2 (by decide)
      (by decide) (by decide)).1,
    ((register_instance_capacity demoEnv 2 5 [("a", [("k", "v")])]).2 (by decide)
      (by decide) (by decide)).2.1,
    rfl⟩⟩

/-- C6: a CreateKey request with an empty subject resolves the subject through
IdentHandler::GetSystemID before routing: a locally executed request reaches
the provision manager with the system id as subject, and a forwarded request
carries only frames whose subject is the substituted system id, never the
empty one. -/
theorem create_key_subject_substitution (e : Env) (nodeID certType password : String)
    (hident : e.hasIdentHandler = true)
    (hsys : e.systemID.1.IsNone = true) :
    (ProcessOnThisNode e nodeID = true →
      Event.identGetSystemID ∈ (CreateKey e nodeID certType "" password).2.2
      ∧ Event.localCreateKey certType e.systemID.2 password
          ∈ (CreateKey e nodeID certType "" password).2.2)
    ∧ (ProcessOnThisNode e nodeID = false →
      Event.identGetSystemID ∈ (CreateKey e nodeID certType "" password).2.2
      ∧ ((CreateKey e nodeID certType "" password).2.2).all
          (fun ev => !ev.isForward
            || ev == Event.forward nodeID (RemoteOp.createKey e.systemID.2)
                cDefaultTimeoutSec) = true) := by
  constructor
  · intro h
    constructor
    · simp [CreateKey, hident, hsys, h]
      split_ifs <;> simp
    · simp [CreateKey, hident, hsys, h]
      split_ifs <;> simp
  · intro h
    have hf := forwardCall_all e (RemoteOp.createKey e.systemID.2) nodeID cDefaultTimeoutSec
      (fun ev => !ev.isForward
        || ev == Event.forward nodeID (RemoteOp.createKey e.systemID.2) cDefaultTimeoutSec)
      (by simp [Event.isForward]) (fun j full => by simp [Event.isForward])
    constructor
    · simp [CreateKey, hident, hsys, h]
    · simp only [List.all_eq_true] at hf
      simp [CreateKey, hident, hsys, h, Event.isForward]
      intro x hx
      simpa [Event.isForward] using hf x hx

/-- Witness for C6: on the canonical environment, a self-targeted CreateKey
with empty subject invokes the provision manager with subject "system-id",
and one targeting a secondary node sends only frames whose subject is
"system-id". -/
theorem create_key_subject_substitution_witness :
    Event.localCreateKey "ct" "system-id" "pw" ∈ (CreateKey demoEnv "main" "ct" "" "pw").2.2
    ∧ ((CreateKey demoEnv "node1" "ct" "" "pw").2.2).all
        (fun ev => !ev.isForward
          || ev == Event.forward "node1" (RemoteOp.createKey "system-id")
              cDefaultTimeoutSec) = true :=
  ⟨((create_key_subject_substitution demoEnv "main" "ct" "pw" rfl rfl).1 (by decide)).2,
   ((create_key_subject_substitution demoEnv "node1" "ct" "pw" rfl rfl).2 (by decide)).2⟩
